import Mathlib

/-!
Verification of the invento-search inventory-catalog web front end.

The development shallowly embeds the parts of the repository the claims
touch: the `schema.Item` record and its JSON document form
(src/schema/model.go), the index bootstrap and startup sequences, and the
HTTP handlers of the two program variants in src/main.go (landing page,
item page, create, edit, search) together with the stock-increment update
request. External effects (the Elasticsearch client, templates) are passed
in as explicit functions; panics and HTTP 500 responses are distinct
outcome constructors.
-/

set_option linter.unusedVariables false

namespace InventoSearch

/-- JSON-compatible document values. Timestamps (Go `time.Time`, serialized
by `encoding/json` through its RFC3339 `MarshalJSON`) are abstracted as an
injective `time` constructor carrying the instant, since RFC3339 rendering
of a wall-clock instant is injective. -/
inductive JVal : Type where
  | str : String → JVal
  | num : Int → JVal
  | boolean : Bool → JVal
  | time : Int → JVal
  | arr : List JVal → JVal
  | obj : List (String × JVal) → JVal
  | null : JVal
deriving Inhabited

/-- The `elastic.SuggestField` completion payload, the olivere/elastic v6
library type `schema.Item` references. Its fields (`inputs`, `weight`) are
unexported; the defaults here are the Go zero values, which is what a
`json.Unmarshal`-allocated value holds. Context queries are omitted:
nothing in the repository constructs a suggest payload, and an empty
context set does not change the marshalled shape. -/
structure SuggestField where
  inputs : List String := []
  weight : Int := 0
deriving DecidableEq, Repr, Inhabited

/-- The library's custom `SuggestField.MarshalJSON`: with a non-negative
weight it emits an object carrying the inputs and the weight; otherwise a
single input is emitted as a bare JSON string and any other input list as a
bare JSON array. -/
def marshalSuggestField (f : SuggestField) : JVal :=
  if 0 ≤ f.weight then
    JVal.obj [("input", JVal.arr (f.inputs.map JVal.str)),
              ("weight", JVal.num f.weight)]
  else
    match f.inputs with
    | [x] => JVal.str x
    | xs => JVal.arr (xs.map JVal.str)

/-- `schema.Item` (src/schema/model.go): the record serialized to and from
the index. Field defaults are the Go zero values. `created` abstracts the
`time.Time` value as an instant (`0` is the zero time); `suggest` is the
`*elastic.SuggestField` pointer (`none` is the nil pointer). -/
structure Item where
  name : String := ""
  description : String := ""
  stock : Int := 0
  image : String := ""
  created : Int := 0
  tags : List String := []
  location : String := ""
  suggest : Option SuggestField := none
deriving Inhabited

/-- Go `encoding/json` encoding of `Item` per the struct tags in model.go:
`name`, `description`, `stock` carry no `omitempty` and are always present;
`omitempty` omits an empty string, a nil or empty slice, and a nil pointer,
but has no effect on a struct type such as `time.Time`, so `created` is
always emitted. -/
def encodeFields (i : Item) : List (String × JVal) :=
  [("name", JVal.str i.name),
   ("description", JVal.str i.description),
   ("stock", JVal.num i.stock)]
  ++ (if i.image = "" then [] else [("image", JVal.str i.image)])
  ++ [("created", JVal.time i.created)]
  ++ (if i.tags = [] then [] else [("tags", JVal.arr (i.tags.map JVal.str))])
  ++ (if i.location = "" then [] else [("location", JVal.str i.location)])
  ++ (match i.suggest with
      | none => []
      | some f => [("suggest_field", marshalSuggestField f)])

/-- The JSON document form of an `Item`. -/
def encodeItem (i : Item) : JVal := JVal.obj (encodeFields i)

/-- First value stored under key `k` in a JSON object's field list. -/
def lookupField (fields : List (String × JVal)) (k : String) : Option JVal :=
  (fields.find? (fun p => p.1 == k)).map Prod.snd

/-- Unmarshal a string-typed struct field: a missing key leaves the zero
value, a present non-string value is a type error. -/
def decodeStr : Option JVal → Option String
  | none => some ""
  | some (JVal.str s) => some s
  | some _ => none

/-- Unmarshal an int-typed struct field. -/
def decodeInt : Option JVal → Option Int
  | none => some 0
  | some (JVal.num n) => some n
  | some _ => none

/-- Unmarshal the `time.Time` field. -/
def decodeTime : Option JVal → Option Int
  | none => some 0
  | some (JVal.time t) => some t
  | some _ => none

/-- Unmarshal one element of a `[]string` field. -/
def decodeTagElem : JVal → Option String
  | JVal.str s => some s
  | _ => none

/-- Unmarshal the elements of a JSON array into strings, failing on any
non-string element. -/
def decodeStrList : List JVal → Option (List String)
  | [] => some []
  | v :: vs =>
    match decodeTagElem v, decodeStrList vs with
    | some s, some rest => some (s :: rest)
    | _, _ => none

/-- Unmarshal the `[]string` tags field: missing key leaves the nil slice. -/
def decodeTags : Option JVal → Option (List String)
  | none => some []
  | some (JVal.arr vs) => decodeStrList vs
  | some _ => none

/-- Unmarshal the optional suggest payload into `*elastic.SuggestField`. A
missing key leaves the nil pointer and JSON null sets it to nil. The struct
has no exported fields and no `UnmarshalJSON`, so `json.Unmarshal` of a JSON
object allocates the struct, ignores every key, and yields the zero value;
any other shape (the bare string or array marshal forms included) is a type
error. The original payload is never recovered. -/
def decodeSuggest : Option JVal → Option (Option SuggestField)
  | none => some none
  | some JVal.null => some none
  | some (JVal.obj _) => some (some {})
  | some _ => none

/-- `json.Unmarshal` of a document into `schema.Item`: the document must be
a JSON object, and every present field must have the declared type. -/
def decodeItem : JVal → Option Item
  | JVal.obj fields =>
    match decodeStr (lookupField fields "name"),
          decodeStr (lookupField fields "description"),
          decodeInt (lookupField fields "stock"),
          decodeStr (lookupField fields "image"),
          decodeTime (lookupField fields "created"),
          decodeTags (lookupField fields "tags"),
          decodeStr (lookupField fields "location"),
          decodeSuggest (lookupField fields "suggest_field") with
    | some n, some d, some s, some im, some c, some tg, some loc, some sg =>
      some { name := n, description := d, stock := s, image := im,
             created := c, tags := tg, location := loc, suggest := sg }
    | _, _, _, _, _, _, _, _ => none
  | _ => none

/-- Outcome of one HTTP request: a rendered page, an HTTP 500 response
carrying the error text produced by `http.Error`, a redirect issued by
`http.Redirect`, or a `panic(err)` (which writes no HTTP 500 response). -/
inductive ReqOutcome (α : Type) : Type where
  | page : α → ReqOutcome α
  | http500 : String → ReqOutcome α
  | redirect : String → ReqOutcome α
  | panicked : String → ReqOutcome α
deriving Repr

/-- The search-loop body of the `/search/` handlers (both variants): for each
hit, unmarshal its source into an `Item`; when unmarshalling fails nothing
happens in the error branch and the zero-valued record `t` is still
appended. -/
def hitToItem (src : JVal) : Item := (decodeItem src).getD {}

/-- The list handed to the `list.html` template by the `/search/` handlers:
one record per fetched hit, malformed or not. The `TotalHits > 0` guard in
the source only changes logging, not the resulting list. -/
def collectHits (hits : List JVal) : List Item := hits.map hitToItem

/-- The query the `/search/` handlers send to the index service. -/
structure EsQuery where
  queryField : String
  termValue : String
  sortField : String
  sortAscending : Bool
  fromOffset : Nat
  sizeLimit : Nat
deriving DecidableEq, Repr

/-- The `/search/` handler, parameterized by the size limit that is the only
difference between the two variants (10 in the first, 100 in the second).
The first component records the query issued to the backend, `none` meaning
the backend was never invoked; a backend error is a `panic(err)`. -/
def searchHandler (sizeLimit : Nat)
    (backend : EsQuery → Except String (List JVal)) (name : String) :
    Option EsQuery × ReqOutcome (List Item) :=
  if name = "" then (none, ReqOutcome.page [])
  else
    let q : EsQuery :=
      { queryField := "name", termValue := name, sortField := "name",
        sortAscending := true, fromOffset := 0, sizeLimit := sizeLimit }
    match backend q with
    | Except.error e => (some q, ReqOutcome.panicked e)
    | Except.ok hits => (some q, ReqOutcome.page (collectHits hits))

/-- `/search/` handler of the first variant: `From(0).Size(10)`. -/
def searchHandler1 : (EsQuery → Except String (List JVal)) → String →
    Option EsQuery × ReqOutcome (List Item) :=
  searchHandler 10

/-- `/search/` handler of the second variant: `From(0).Size(100)`. -/
def searchHandler2 : (EsQuery → Except String (List JVal)) → String →
    Option EsQuery × ReqOutcome (List Item) :=
  searchHandler 100

/-- The index mapping declared in main.go (both variants), as the map from
field name to declared type. -/
def mappingFields : List (String × String) :=
  [("id", "text"), ("name", "keyword"), ("description", "text"),
   ("image", "keyword"), ("created", "date"), ("tags", "keyword"),
   ("location", "geo_point"), ("suggest_field", "completion")]

/-- Result of running the bootstrap fragment: the index state afterwards
(`none` = absent, `some m` = present with mapping `m`), whether a
create-index call was issued, and whether the fragment succeeded. -/
structure BootstrapResult where
  state : Option (List (String × String))
  createCalled : Bool
  ok : Bool
deriving DecidableEq, Repr

/-- The index bootstrap fragment shared by both variants: `IndexExists`,
then `CreateIndex` with the declared mapping only when the index is
absent. -/
def bootstrap (st : Option (List (String × String))) : BootstrapResult :=
  match st with
  | some m => { state := some m, createCalled := false, ok := true }
  | none => { state := some mappingFields, createCalled := true, ok := true }

/-- The document store backing a handler: document id to stored item. -/
abbrev Store := String → Option Item

/-- The POST path of the second variant's `/edit/` handler: the item is
first fetched by id (`Found` unmarshals it, otherwise the zero item
remains); the update script `ctx._source.name = params.name` is then run
with `params.name` bound to `item.Name`, the name just fetched — the
request's `name` form value is never read. The upsert document carries only
an empty-string name and is used only when the id is absent. -/
def editHandlerPost (store : Store) (id nameForm : String) : Store :=
  if id = "" then store
  else
    let fetched : Item := (store id).getD {}
    fun k =>
      if k = id then
        match store id with
        | some it => some { it with name := fetched.name }
        | none => some { name := "" }
      else store k

/-- Control flow of the second variant's `/edit/` handler on a POST with a
non-empty id, with each client call's result passed in: `getRes` is the
`Get` (ok `none` = not found, ok `some j` = found with source `j`),
`updateRes` the `Update` script call, `flushRes` the following `Flush`
calls, `renderRes` the final `edit.html` rendering. Every failed client
call — the get, the unmarshal of a found document, the update, a flush — is
`panic(err)`; on success the handler redirects to the item page, and only a
failed template rendering reaches `http.Error(w, err, 500)`. -/
def editHandlerOutcome (id : String)
    (getRes : Except String (Option JVal))
    (updateRes flushRes : Except String Unit)
    (renderRes : Except String String) : ReqOutcome String :=
  match getRes with
  | Except.error e => ReqOutcome.panicked e
  | Except.ok src =>
    match (match src with
           | none => some ({} : Item)
           | some j => decodeItem j) with
    | none => ReqOutcome.panicked "json unmarshal error"
    | some _ =>
      match updateRes with
      | Except.error e => ReqOutcome.panicked e
      | Except.ok _ =>
        match flushRes with
        | Except.error e => ReqOutcome.panicked e
        | Except.ok _ =>
          match renderRes with
          | Except.error e => ReqOutcome.http500 e
          | Except.ok _ => ReqOutcome.redirect ("/items?id=" ++ id)

/-- The `/items/` handler (both variants): fetch the document by id; when
found, unmarshal it (`panic` on a malformed document); when not found, log
`Document ... not found` and render `item.html` with the zero-valued
record. An empty id skips the fetch entirely. The second component is the
log output. -/
def itemsHandler (fetch : String → Option JVal) (id : String) :
    ReqOutcome Item × List String :=
  if id = "" then (ReqOutcome.page {}, [])
  else
    match fetch id with
    | none => (ReqOutcome.page {}, ["Document " ++ id ++ " not found"])
    | some src =>
      match decodeItem src with
      | some it => (ReqOutcome.page it, ["Got document " ++ id])
      | none => (ReqOutcome.panicked "json unmarshal error", [])

/-- The `/create/` handler (both variants behave identically here): build
the new item with stock 1 from the form values, index it — a failed index
call is a `panic(err)` — then render `create.html`, where only a template
failure produces `http.Error(w, err, 500)`. -/
def createHandler (indexCall : Item → Except String Unit)
    (render : Item → Except String String)
    (name description : String) : ReqOutcome String :=
  let item : Item := { name := name, description := description }
  let newItem : Item :=
    { name := item.name, description := item.description, stock := 1 }
  match indexCall newItem with
  | Except.error e => ReqOutcome.panicked e
  | Except.ok _ =>
    match render item with
    | Except.error e => ReqOutcome.http500 e
    | Except.ok body => ReqOutcome.page body

/-- The welcome template context of the first variant, built at startup
from the literal name `Nakama` and the formatted start time, and captured
by the landing-page closure. -/
structure WelcomeV1 where
  name : String
  startedAt : String
deriving DecidableEq, Repr

/-- The welcome template context of the second variant (`schema.Welcome` in
src/schema/model.go). -/
structure Welcome where
  username : String
deriving DecidableEq, Repr

/-- Landing-page handler of the first variant: `welcome.Name = name` is
assigned on the captured context whenever the `name` parameter is
non-empty; the returned value is the shared context after the request. -/
def landingHandler1 (welcome : WelcomeV1) (nameParam : String) : WelcomeV1 :=
  if nameParam = "" then welcome else { welcome with name := nameParam }

/-- Landing-page handler of the second variant: `welcome.Username =
username` on the captured context whenever the `username` parameter is
non-empty. -/
def landingHandler2 (welcome : Welcome) (usernameParam : String) : Welcome :=
  if usernameParam = "" then welcome
  else { welcome with username := usernameParam }

/-- One backend call made during startup of the second variant. -/
inductive StartupAction : Type where
  | deleteIndex : String → StartupAction
  | indexExistsCheck : String → StartupAction
  | createIndex : String → StartupAction
  | indexDoc : String → Item → StartupAction
  | flush : String → StartupAction

/-- The seed items indexed by the second variant's `main`. -/
def seedItems : List Item :=
  [{ name := "pedestal", description := "3-tier white-colored pedestal.", stock := 1 },
   { name := "desk", description := "Black wooden desk.", stock := 15 },
   { name := "monitor", description := "LG monitor complete with cable.", stock := 2 },
   { name := "monitor", description := "Samsung monitor complete with cable.", stock := 2 },
   { name := "monitor", description := "Apple monitor complete with cable.", stock := 2 },
   { name := "monitor", description := "Dell monitor complete with cable.", stock := 2 },
   { name := "laptop", description := "Macbook Pro 2017 13-inch.", stock := 30 },
   { name := "mouse", description := "Logitech M100 black mouse.", stock := 4 },
   { name := "mouse pad", description := "Plain black mouse pad.", stock := 100 },
   { name := "mug", description := "Mug with Tokopedia logo.", stock := 55 },
   { name := "notebook", description := "A4 notebook with strap.", stock := 6 },
   { name := "shirt", description := "Black t-shirt with Tokopedia logo.", stock := 9 },
   { name := "green chair", description := "Green chair from the USA.", stock := 9 },
   { name := "black chair", description := "Black chair from the UK.", stock := 9 }]

/-- The backend calls issued by the second variant's `main` at startup, in
order: an unconditional `DeleteIndex("items")` first, then the existence
check, the conditional create, the seed writes, and a flush. `main` takes
no flag, environment value, or argument that could disable the delete; the
only input is what the existence check later reports. -/
def startupActions2 (indexExistsAfterDelete : Bool) : List StartupAction :=
  [StartupAction.deleteIndex "items"]
  ++ [StartupAction.indexExistsCheck "items"]
  ++ (if indexExistsAfterDelete then [] else [StartupAction.createIndex "items"])
  ++ (seedItems.map (StartupAction.indexDoc "items"))
  ++ [StartupAction.flush "items"]

/-- The startup sequence of the first variant's `main`: no delete call — the
`DeleteIndex` block is commented out in the source — only the existence
check and conditional create, then the two fixed document writes and a
flush. -/
def startupActions1 (indexExists : Bool) : List StartupAction :=
  [StartupAction.indexExistsCheck "inventopedia"]
  ++ (if indexExists then [] else [StartupAction.createIndex "inventopedia"])
  ++ [StartupAction.indexDoc "inventopedia"
        { name := "Chair", description := "A green chair imported from the USA.", stock := 0 },
      StartupAction.indexDoc "inventopedia" { name := "Laptop", description := "Macbook Pro 15-inch" },
      StartupAction.flush "inventopedia"]

/-- The stock-increment update request issued by the first variant's `main`:
an inline painless script reading the stored stock, with parameter
`num = 1` and an upsert document carrying stock 0. The request carries no
client-computed stock value. -/
structure UpdateRequest where
  script : String
  num : Int
  upsertStock : Int
deriving DecidableEq, Repr

/-- The concrete update request from main.go. -/
def stockIncrementRequest : UpdateRequest :=
  { script := "ctx._source.stock += params.num", num := 1, upsertStock := 0 }

/-- Server-side semantics of the update request: the index service applies
the script to the stored document as a read-modify-write under its
per-document write serialization; when the document is absent the upsert
document is indexed instead (the script is not run). -/
def applyUpdate (req : UpdateRequest) (doc : Option Item) : Option Item :=
  match doc with
  | none => some { stock := req.upsertStock }
  | some it => some { it with stock := it.stock + req.num }

/-- Unmarshalling a marshalled `[]string` value recovers it. -/
theorem decodeStrList_map_str (l : List String) :
    decodeStrList (l.map JVal.str) = some l := by
  induction l with
  | nil => rfl
  | cons a t ih => simp [List.map, decodeStrList, decodeTagElem, ih]

/-- C1 counterexample: in the encoded form of the all-default `Item` the
`created` field is present (as the zero time) even though it holds its
default value, because `omitempty` has no effect on the struct type
`time.Time`; the claim asserts every default-valued optional field is
absent. -/
theorem c1_counterexample :
    ({} : Item).created = 0 ∧
    lookupField (encodeFields {}) "created" = some (JVal.time 0) :=
  ⟨rfl, rfl⟩

set_option maxHeartbeats 2000000 in
/-- C1 (amended): encoding an `Item` to its document form and decoding it
back yields an equal record exactly when its suggest pointer is nil (the
only form the program ever builds); a non-nil suggest does not survive —
the object marshal form decodes to the zero `SuggestField` and the bare
string or array forms fail to decode. `name`, `description`, `stock` are
always present; `image`, `tags`, `location`, `suggest_field` are present
exactly when non-empty or non-nil; but `created` is always present
regardless of value, since `omitempty` does not apply to the struct-typed
timestamp. -/
theorem c1_round_trip_omitempty (i : Item) :
    decodeItem (encodeItem i)
      = (match i.suggest with
         | none => some i
         | some f =>
           if 0 ≤ f.weight then some { i with suggest := some {} } else none)
    ∧ lookupField (encodeFields i) "name" = some (JVal.str i.name)
    ∧ lookupField (encodeFields i) "description" = some (JVal.str i.description)
    ∧ lookupField (encodeFields i) "stock" = some (JVal.num i.stock)
    ∧ lookupField (encodeFields i) "created" = some (JVal.time i.created)
    ∧ lookupField (encodeFields i) "image"
        = (if i.image = "" then none else some (JVal.str i.image))
    ∧ lookupField (encodeFields i) "tags"
        = (if i.tags = [] then none else some (JVal.arr (i.tags.map JVal.str)))
    ∧ lookupField (encodeFields i) "location"
        = (if i.location = "" then none else some (JVal.str i.location))
    ∧ lookupField (encodeFields i) "suggest_field"
        = Option.map marshalSuggestField i.suggest := by
  rcases i with ⟨n, d, s, im, c, tg, loc, sg⟩
  rcases sg with _ | ⟨inputs, weight⟩
  · by_cases him : im = "" <;> by_cases htg : tg = [] <;>
      by_cases hloc : loc = "" <;>
      simp [him, htg, hloc, encodeItem, encodeFields, decodeItem, lookupField,
        decodeStr, decodeInt, decodeTime, decodeTags, decodeSuggest,
        decodeStrList_map_str, List.find?]
  · by_cases hw : (0 : Int) ≤ weight
    · by_cases him : im = "" <;> by_cases htg : tg = [] <;>
        by_cases hloc : loc = "" <;>
        simp [him, htg, hloc, hw, encodeItem, encodeFields, decodeItem,
          lookupField, decodeStr, decodeInt, decodeTime, decodeTags,
          decodeSuggest, marshalSuggestField, decodeStrList_map_str, List.find?]
    · rcases inputs with _ | ⟨x, _ | ⟨y, rest⟩⟩ <;>
        by_cases him : im = "" <;> by_cases htg : tg = [] <;>
        by_cases hloc : loc = "" <;>
        simp [him, htg, hloc, hw, encodeItem, encodeFields, decodeItem,
          lookupField, decodeStr, decodeInt, decodeTime, decodeTags,
          decodeSuggest, marshalSuggestField, decodeStrList_map_str, List.find?]

/-- C2: the search loop does not exclude a hit whose document fails to
unmarshal — for the malformed hit document consisting of the bare JSON
string `garbage` (no object), decoding fails, yet the list handed to the
template contains the zero-valued record. -/
theorem c2_malformed_hit_included :
    decodeItem (JVal.str "garbage") = none ∧
    collectHits [JVal.str "garbage"] = [{}] :=
  ⟨rfl, rfl⟩

/-- C3: with a non-empty name parameter each search handler issues exactly
one exact-match term query on the name field, sorted ascending by name,
offset 0, size 10 (first variant) or 100 (second variant); with an empty
name parameter it renders the empty result list and never invokes the
backend. -/
theorem c3_search_query_shape (name : String)
    (backend backend2 : EsQuery → Except String (List JVal)) :
    (name ≠ "" →
      (searchHandler1 backend name).1 =
        some { queryField := "name", termValue := name, sortField := "name",
               sortAscending := true, fromOffset := 0, sizeLimit := 10 } ∧
      (searchHandler2 backend2 name).1 =
        some { queryField := "name", termValue := name, sortField := "name",
               sortAscending := true, fromOffset := 0, sizeLimit := 100 })
    ∧ (name = "" →
      searchHandler1 backend name = (none, ReqOutcome.page []) ∧
      searchHandler2 backend2 name = (none, ReqOutcome.page [])) := by
  constructor
  · intro h
    constructor
    · simp only [searchHandler1, searchHandler, if_neg h]
      cases backend _ <;> rfl
    · simp only [searchHandler2, searchHandler, if_neg h]
      cases backend2 _ <;> rfl
  · intro h
    subst h
    exact ⟨rfl, rfl⟩

/-- C3 witness at the concrete name `chair` and at the empty name. -/
theorem c3_search_query_shape_witness :
    ((searchHandler1 (fun _ => Except.ok []) "chair").1 =
        some { queryField := "name", termValue := "chair", sortField := "name",
               sortAscending := true, fromOffset := 0, sizeLimit := 10 } ∧
      (searchHandler2 (fun _ => Except.ok []) "chair").1 =
        some { queryField := "name", termValue := "chair", sortField := "name",
               sortAscending := true, fromOffset := 0, sizeLimit := 100 }) ∧
    (searchHandler1 (fun _ => Except.ok []) "" = (none, ReqOutcome.page []) ∧
      searchHandler2 (fun _ => Except.ok []) "" = (none, ReqOutcome.page [])) :=
  ⟨(c3_search_query_shape "chair" _ _).1 (by decide),
   (c3_search_query_shape "" _ _).2 rfl⟩

/-- C4: bootstrapping against an existing index is a no-op that succeeds
without a create call and without changing the mapping; the create call is
issued exactly when the index is absent. -/
theorem c4_bootstrap_idempotent (m : List (String × String)) :
    bootstrap (some m) = { state := some m, createCalled := false, ok := true } ∧
    (bootstrap none).createCalled = true :=
  ⟨rfl, rfl⟩

/-- C5: on a POST to the edit endpoint with a non-empty id of a stored
document, the update writes back the name just fetched, so the stored item
is unchanged; the submitted name form value never influences the result. -/
theorem c5_edit_writes_fetched_name (store : Store)
    (id nameForm nameForm2 : String) (it : Item)
    (hid : id ≠ "") (hst : store id = some it) :
    editHandlerPost store id nameForm id = some it ∧
    editHandlerPost store id nameForm = editHandlerPost store id nameForm2 := by
  constructor
  · simp [editHandlerPost, hid, hst]
  · rfl

/-- C5 witness: a concrete one-document store, edited with a submitted name
that does not appear in the outcome. -/
theorem c5_edit_witness :
    editHandlerPost
        (fun k => if k = "1" then some { name := "desk", stock := 15 } else none)
        "1" "hacked" "1" = some { name := "desk", stock := 15 } ∧
    editHandlerPost
        (fun k => if k = "1" then some { name := "desk", stock := 15 } else none)
        "1" "hacked"
      = editHandlerPost
          (fun k => if k = "1" then some { name := "desk", stock := 15 } else none)
          "1" "other" :=
  c5_edit_writes_fetched_name _ "1" "hacked" "other" _ (by decide) rfl

/-- C6 counterexample: the landing-page handler does modify the shared
welcome context — a request with name parameter `Alice` changes the context
built at startup, refuting its claimed immutability. -/
theorem c6_counterexample :
    landingHandler1 { name := "Nakama", startedAt := "t0" } "Alice"
      = { name := "Alice", startedAt := "t0" } ∧
    ¬ landingHandler1 { name := "Nakama", startedAt := "t0" } "Alice"
        = { name := "Nakama", startedAt := "t0" } := by
  exact ⟨rfl, by decide⟩

/-- C6 (amended): the welcome template context is shared mutable state: in
either variant the landing-page handler overwrites its name (first variant)
or username (second variant) field whenever the corresponding parameter is
non-empty, and leaves it unchanged when the parameter is empty. -/
theorem c6_welcome_mutated_by_handler (w1 : WelcomeV1) (w2 : Welcome)
    (p : String) (hp : p ≠ "") :
    landingHandler1 w1 p = { w1 with name := p } ∧
    landingHandler2 w2 p = { w2 with username := p } ∧
    landingHandler1 w1 "" = w1 ∧
    landingHandler2 w2 "" = w2 := by
  refine ⟨?_, ?_, rfl, rfl⟩ <;> simp [landingHandler1, landingHandler2, hp]

/-- C6 witness at the startup context and the parameter `Alice`. -/
theorem c6_welcome_mutation_witness :
    landingHandler1 { name := "Nakama", startedAt := "t0" } "Alice"
      = { name := "Alice", startedAt := "t0" } ∧
    landingHandler2 { username := "Nakama" } "Alice" = { username := "Alice" } :=
  ⟨(c6_welcome_mutated_by_handler { name := "Nakama", startedAt := "t0" }
      { username := "Nakama" } "Alice" (by decide)).1,
   (c6_welcome_mutated_by_handler { name := "Nakama", startedAt := "t0" }
      { username := "Nakama" } "Alice" (by decide)).2.1⟩

/-- C7: the second variant's startup issues `DeleteIndex` as its very first
backend call on every run — there is no opt-in input that disables it —
while the first variant's startup issues no delete call at all. -/
theorem c7_startup_deletes_unconditionally (b : Bool) :
    (startupActions2 b).head? = some (StartupAction.deleteIndex "items") ∧
    (∀ a ∈ startupActions1 b, ∀ idx : String, a ≠ StartupAction.deleteIndex idx) := by
  constructor
  · cases b <;> rfl
  · intro a ha idx hcontra
    subst hcontra
    cases b <;> simp [startupActions1] at ha

/-- C8: fetching an id that is not in the index is non-fatal: the handler
logs the not-found condition and renders the page with the zero-valued
record, with no unmarshal step and no panic. -/
theorem c8_not_found_renders_zero_item (fetch : String → Option JVal)
    (id : String) (hid : id ≠ "") (habs : fetch id = none) :
    itemsHandler fetch id
      = (ReqOutcome.page {}, ["Document " ++ id ++ " not found"]) := by
  simp [itemsHandler, hid, habs]

/-- C8 witness: an empty index and the concrete id `404`. -/
theorem c8_not_found_witness :
    itemsHandler (fun _ => none) "404"
      = (ReqOutcome.page {}, ["Document 404 not found"]) :=
  c8_not_found_renders_zero_item _ "404" (by decide) rfl

/-- C9 counterexample: a failed index write in the create handler produces
a panic, not an HTTP 500 response carrying the error text as the claim
states. -/
theorem c9_counterexample :
    createHandler (fun _ => Except.error "connection refused")
        (fun _ => Except.ok "rendered") "chair" "a chair"
      = ReqOutcome.panicked "connection refused" :=
  rfl

/-- C9 (amended): a failed index-service call — the create handler's index
write, the edit handler's update script call or flush, either search
handler's query, the edit handler's document fetch — makes the handler
panic, writing no HTTP 500 response; an HTTP 500 response carrying the
error text arises exactly when every backend call succeeds and the template
rendering fails with that error (stated as an iff for the create handler
and in both directions for the edit handler, the handlers with a rendering
error path after index calls). -/
theorem c9_index_failures_panic (idx : Item → Except String Unit)
    (rnd : Item → Except String String)
    (bk bk2 : EsQuery → Except String (List JVal))
    (getRes : Except String (Option JVal))
    (updateRes flushRes : Except String Unit)
    (renderRes : Except String String)
    (src : Option JVal) (it : Item) (n d nm id e : String) :
    (idx { name := n, description := d, stock := 1 } = Except.error e →
      createHandler idx rnd n d = ReqOutcome.panicked e)
    ∧ (createHandler idx rnd n d = ReqOutcome.http500 e ↔
        idx { name := n, description := d, stock := 1 } = Except.ok () ∧
        rnd { name := n, description := d } = Except.error e)
    ∧ (nm ≠ "" →
      bk { queryField := "name", termValue := nm, sortField := "name",
           sortAscending := true, fromOffset := 0, sizeLimit := 10 }
        = Except.error e →
      (searchHandler1 bk nm).2 = ReqOutcome.panicked e)
    ∧ (nm ≠ "" →
      bk2 { queryField := "name", termValue := nm, sortField := "name",
            sortAscending := true, fromOffset := 0, sizeLimit := 100 }
        = Except.error e →
      (searchHandler2 bk2 nm).2 = ReqOutcome.panicked e)
    ∧ (getRes = Except.error e →
      editHandlerOutcome id getRes updateRes flushRes renderRes
        = ReqOutcome.panicked e)
    ∧ (getRes = Except.ok src →
      (match src with | none => some ({} : Item) | some j => decodeItem j)
        = some it →
      updateRes = Except.error e →
      editHandlerOutcome id getRes updateRes flushRes renderRes
        = ReqOutcome.panicked e)
    ∧ (getRes = Except.ok src →
      (match src with | none => some ({} : Item) | some j => decodeItem j)
        = some it →
      updateRes = Except.ok () → flushRes = Except.error e →
      editHandlerOutcome id getRes updateRes flushRes renderRes
        = ReqOutcome.panicked e)
    ∧ (getRes = Except.ok src →
      (match src with | none => some ({} : Item) | some j => decodeItem j)
        = some it →
      updateRes = Except.ok () → flushRes = Except.ok () →
      renderRes = Except.error e →
      editHandlerOutcome id getRes updateRes flushRes renderRes
        = ReqOutcome.http500 e)
    ∧ (getRes = Except.ok src →
      (match src with | none => some ({} : Item) | some j => decodeItem j)
        = some it →
      updateRes = Except.ok () → flushRes = Except.ok () →
      renderRes = Except.ok e →
      editHandlerOutcome id getRes updateRes flushRes renderRes
        = ReqOutcome.redirect ("/items?id=" ++ id))
    ∧ (editHandlerOutcome id getRes updateRes flushRes renderRes
        = ReqOutcome.http500 e →
      renderRes = Except.error e) := by
  refine ⟨fun h => ?_, ⟨fun h => ?_, fun h => ?_⟩, fun hn hb => ?_,
    fun hn hb => ?_, fun h => ?_, fun h1 h2 h3 => ?_, fun h1 h2 h3 h4 => ?_,
    fun h1 h2 h3 h4 h5 => ?_, fun h1 h2 h3 h4 h5 => ?_, fun h => ?_⟩
  · simp [createHandler, h]
  · rcases hu : idx { name := n, description := d, stock := 1 } with eu | u
    · simp [createHandler, hu] at h
    · rcases hr : rnd { name := n, description := d } with er | r
      · simp [createHandler, hu, hr] at h
        subst h
        exact ⟨rfl, rfl⟩
      · simp [createHandler, hu, hr] at h
  · obtain ⟨h1, h2⟩ := h
    simp [createHandler, h1, h2]
  · simp [searchHandler1, searchHandler, hn, hb]
  · simp [searchHandler2, searchHandler, hn, hb]
  · simp [editHandlerOutcome, h]
  · simp [editHandlerOutcome, h1, h2, h3]
  · simp [editHandlerOutcome, h1, h2, h3, h4]
  · simp [editHandlerOutcome, h1, h2, h3, h4, h5]
  · simp [editHandlerOutcome, h1, h2, h3, h4, h5]
  · rcases getRes with e' | src'
    · simp [editHandlerOutcome] at h
    · rcases hsrc : (match src' with
          | none => some ({} : Item)
          | some j => decodeItem j) with _ | it'
      · simp [editHandlerOutcome, hsrc] at h
      · rcases updateRes with eu | u
        · simp [editHandlerOutcome, hsrc] at h
        · rcases flushRes with ef | f
          · simp [editHandlerOutcome, hsrc] at h
          · rcases renderRes with er | r
            · simp [editHandlerOutcome, hsrc] at h
              subst h
              rfl
            · simp [editHandlerOutcome, hsrc] at h

/-- C9 witness: concrete failing index write, failing template, failing
search backends of both variants, and failing edit update, flush, and
rendering calls. -/
theorem c9_index_failures_witness :
    createHandler (fun _ => Except.error "boom") (fun _ => Except.ok "page")
        "chair" "a chair" = ReqOutcome.panicked "boom" ∧
    createHandler (fun _ => Except.ok ()) (fun _ => Except.error "template broken")
        "chair" "a chair" = ReqOutcome.http500 "template broken" ∧
    (searchHandler1 (fun _ => Except.error "conn down") "chair").2
      = ReqOutcome.panicked "conn down" ∧
    (searchHandler2 (fun _ => Except.error "conn down") "chair").2
      = ReqOutcome.panicked "conn down" ∧
    editHandlerOutcome "1" (Except.ok none) (Except.error "update failed")
        (Except.ok ()) (Except.ok "page") = ReqOutcome.panicked "update failed" ∧
    editHandlerOutcome "1" (Except.ok none) (Except.ok ())
        (Except.error "flush failed") (Except.ok "page")
      = ReqOutcome.panicked "flush failed" ∧
    editHandlerOutcome "1" (Except.ok none) (Except.ok ()) (Except.ok ())
        (Except.error "template broken") = ReqOutcome.http500 "template broken" :=
  ⟨(c9_index_failures_panic (fun _ => Except.error "boom") (fun _ => Except.ok "page")
      (fun _ => Except.ok []) (fun _ => Except.ok []) (Except.ok none)
      (Except.ok ()) (Except.ok ()) (Except.ok "page") none {} "chair" "a chair"
      "x" "1" "boom").1 rfl,
   ((c9_index_failures_panic (fun _ => Except.ok ()) (fun _ => Except.error "template broken")
      (fun _ => Except.ok []) (fun _ => Except.ok []) (Except.ok none)
      (Except.ok ()) (Except.ok ()) (Except.ok "page") none {} "chair" "a chair"
      "x" "1" "template broken").2.1).mpr ⟨rfl, rfl⟩,
   (c9_index_failures_panic (fun _ => Except.ok ()) (fun _ => Except.ok "page")
      (fun _ => Except.error "conn down") (fun _ => Except.ok []) (Except.ok none)
      (Except.ok ()) (Except.ok ()) (Except.ok "page") none {} "chair" "a chair"
      "chair" "1" "conn down").2.2.1 (by decide) rfl,
   (c9_index_failures_panic (fun _ => Except.ok ()) (fun _ => Except.ok "page")
      (fun _ => Except.ok []) (fun _ => Except.error "conn down") (Except.ok none)
      (Except.ok ()) (Except.ok ()) (Except.ok "page") none {} "chair" "a chair"
      "chair" "1" "conn down").2.2.2.1 (by decide) rfl,
   (c9_index_failures_panic (fun _ => Except.ok ()) (fun _ => Except.ok "page")
      (fun _ => Except.ok []) (fun _ => Except.ok []) (Except.ok none)
      (Except.error "update failed") (Except.ok ()) (Except.ok "page") none {}
      "chair" "a chair" "x" "1" "update failed").2.2.2.2.2.1 rfl rfl rfl,
   (c9_index_failures_panic (fun _ => Except.ok ()) (fun _ => Except.ok "page")
      (fun _ => Except.ok []) (fun _ => Except.ok []) (Except.ok none)
      (Except.ok ()) (Except.error "flush failed") (Except.ok "page") none {}
      "chair" "a chair" "x" "1" "flush failed").2.2.2.2.2.2.1 rfl rfl rfl rfl,
   (c9_index_failures_panic (fun _ => Except.ok ()) (fun _ => Except.ok "page")
      (fun _ => Except.ok []) (fun _ => Except.ok []) (Except.ok none)
      (Except.ok ()) (Except.ok ()) (Except.error "template broken") none {}
      "chair" "a chair" "x" "1" "template broken").2.2.2.2.2.2.2.1 rfl rfl rfl rfl rfl⟩

/-- C10: the stock increment is a server-side script over the stored
document (the request carries the script text and the parameter 1, not a
client-computed value); under the index's per-document serialization of
updates, two concurrent increments against the same id — applied one after
the other in either order — both take effect: final stock = initial + 2. -/
theorem c10_stock_increment_atomic (it : Item) :
    applyUpdate stockIncrementRequest (applyUpdate stockIncrementRequest (some it))
      = some { it with stock := it.stock + 2 } ∧
    stockIncrementRequest.script = "ctx._source.stock += params.num" := by
  constructor
  · simp only [applyUpdate, stockIncrementRequest]
    have : it.stock + 1 + 1 = it.stock + 2 := by omega
    rw [this]
  · rfl

end InventoSearch
